import Mathlib

/-!
Verification of the PicoScope ps3000a example capture scripts under
`ps3000aExamples/`: a shallow embedding of the trigger-threshold
computation, the open/power-state handling, the rapid-block buffer
sizing and registration, the streaming callback and driving loop, the
overflow handling of the bulk retrieval path, the session teardown
paths, the driver-call traces, and the CSV save paths — together with
theorems settling the spec claims against these definitions.

Numeric conventions: Python floats are embedded as exact rationals
(every literal appearing in the scripts is exactly representable and no
computation here comes near the precision of a double), machine
integers as `Int` and counts as `Nat`.
-/

set_option linter.unusedVariables false
set_option maxRecDepth 100000

namespace Pico

/-- Truncation toward zero: the behaviour of Python `int()` applied to a number
(floor for nonnegative arguments, ceiling for negative ones). -/
def pyTrunc (q : ℚ) : ℤ := if 0 ≤ q then ⌊q⌋ else ⌈q⌉

/-- Spec-side definition, written from the spec's words for refinement
comparison: `computeTriggerThresholdCode(thresholdVolts, range, maxCode) =
round(thresholdVolts * maxCode / rangeVolts)`. -/
def computeTriggerThresholdCode (thresholdVolts rangeVolts : ℚ) (maxCode : ℤ) : ℤ :=
  round (thresholdVolts * (maxCode : ℚ) / rangeVolts)

/-- `ps3000atest_4.5.py`, `setup_trigger`: `threshold = int(4.5 / 10.0 * 32767)`.
The maximum ADC code 32767 is a hard-coded literal here; this variant performs
no `ps3000aMaximumValue` query before setting the trigger. -/
def threshold_45 : ℤ := pyTrunc ((9 / 2 : ℚ) / 10 * 32767)

/-- `ps3000atest_o4.py`, `setup_channels` (identically in
`ps3000a_docsV2_sonn3.7.py`): `thr_count = int(THRESHOLD_V * maxADC.value /
max_voltage_range)` with `THRESHOLD_V = 4.5` and `max_voltage_range = 10`,
where `maxADC` is the result of the live `ps3000aMaximumValue` query. -/
def thr_count_o4 (maxADC : ℤ) : ℤ := pyTrunc ((9 / 2 : ℚ) * (maxADC : ℚ) / 10)

/-- Outcome surfaced by the open path: either the script continues, or an
exception carrying the offending status code propagates to the caller. -/
inductive OpenOutcome
  | ok
  | raised (code : ℕ)
  deriving DecidableEq

/-- Whether, and with which argument, `ps3000aChangePowerSource` was invoked
during the open path. -/
inductive PowerAction
  | noAction
  | changeTo (code : ℕ)
  deriving DecidableEq

/-- `open_scope` of `ps3000atest_4.5.py` and `ps3000atest_o4.py` (and the
inline open block of `ps3000atest_sonn.py`): `assert_pico_ok` raises on any
nonzero status; on status 282 or 286 the script calls
`ps3000aChangePowerSource(chandle, status)` with the device-reported status as
the argument and then asserts that call's status; any other nonzero status is
re-raised. `openStatus` is the status of `ps3000aOpenUnit`, `changeStatus` the
status the device returns for the renegotiation call. The first component
records whether (and with which code) the power source was renegotiated, the
second the outcome surfaced to the caller. -/
def open_scope (openStatus changeStatus : ℕ) : PowerAction × OpenOutcome :=
  if openStatus = 0 then (PowerAction.noAction, OpenOutcome.ok)
  else if openStatus = 282 ∨ openStatus = 286 then
    (PowerAction.changeTo openStatus,
      if changeStatus = 0 then OpenOutcome.ok else OpenOutcome.raised changeStatus)
  else (PowerAction.noAction, OpenOutcome.raised openStatus)

/-- C1 counterexample: when the live query reports `maxADC = 32766`, the
threshold code `ps3000atest_o4.py` passes to `ps3000aSetSimpleTrigger` is
14744, while the claimed `round(thresholdVolts * maxCode / rangeVolts)` at the
same inputs (`thresholdVolts = 4.5`, `rangeVolts = 10`) is 14745: the code
truncates rather than rounds (and, separately, `ps3000atest_4.5.py` hard-codes
`maxCode = 32767` instead of querying the device). -/
theorem C1_counterexample :
    thr_count_o4 32766 = 14744 ∧
    computeTriggerThresholdCode (9 / 2) 10 32766 = 14745 := by
  constructor
  · unfold thr_count_o4 pyTrunc
    rw [if_pos (by norm_num)]
    norm_num
  · unfold computeTriggerThresholdCode
    norm_num [round_eq]

/-- C1 amended: the trigger threshold code is the Python `int` truncation of
`thresholdVolts * maxCode / rangeVolts` — for nonnegative `maxADC`, with
`thresholdVolts = 4.5` and `rangeVolts = 10`, this is `⌊9 * maxADC / 20⌋`, not
the rounding; `ps3000atest_4.5.py` moreover hard-codes `maxCode = 32767`
instead of using the live query. At the spec scenario (`rangeVolts = 10`,
`thresholdVolts = 4.5`, `maxCode = 32767`) truncation and rounding agree and
both variants compute 14745. -/
theorem C1_threshold_truncation (m : ℤ) (hm : 0 ≤ m) :
    thr_count_o4 m = ⌊(9 * (m : ℚ)) / 20⌋ ∧
    thr_count_o4 32767 = 14745 ∧
    threshold_45 = 14745 ∧
    computeTriggerThresholdCode (9 / 2) 10 32767 = 14745 := by
  refine ⟨?_, ?_, ?_, ?_⟩
  · have harg : (9 / 2 : ℚ) * (m : ℚ) / 10 = (9 * (m : ℚ)) / 20 := by ring
    have hnn : (0 : ℚ) ≤ (9 * (m : ℚ)) / 20 := by
      have : (0 : ℚ) ≤ (m : ℚ) := by exact_mod_cast hm
      positivity
    unfold thr_count_o4 pyTrunc
    rw [harg, if_pos hnn]
  · unfold thr_count_o4 pyTrunc
    rw [if_pos (by norm_num)]
    norm_num
  · unfold threshold_45 pyTrunc
    rw [if_pos (by norm_num)]
    norm_num
  · unfold computeTriggerThresholdCode
    norm_num [round_eq]

/-- C1 amended witness: the amended theorem applied at `m = 7`. -/
theorem C1_threshold_truncation_witness :
    (0 : ℤ) ≤ 7 ∧
      (thr_count_o4 7 = ⌊(9 * ((7 : ℤ) : ℚ)) / 20⌋ ∧
       thr_count_o4 32767 = 14745 ∧
       threshold_45 = 14745 ∧
       computeTriggerThresholdCode (9 / 2) 10 32767 = 14745) :=
  ⟨by decide, C1_threshold_truncation 7 (by decide)⟩

/-- C4: the open path of the capture scripts handles the device status as the
claim states: status 0 succeeds with no renegotiation; the two benign
power-state codes 282 (insufficient external power) and 286 (USB-3 device on a
slower port) renegotiate the power source via `ps3000aChangePowerSource` called
with the device-reported code and, the renegotiation succeeding, continue
without surfacing an error; any other nonzero status is raised. -/
theorem C4_open_power_handling (s c : ℕ) :
    (s = 0 → open_scope s c = (PowerAction.noAction, OpenOutcome.ok)) ∧
    ((s = 282 ∨ s = 286) → c = 0 →
      open_scope s c = (PowerAction.changeTo s, OpenOutcome.ok)) ∧
    (s ≠ 0 → s ≠ 282 → s ≠ 286 →
      open_scope s c = (PowerAction.noAction, OpenOutcome.raised s)) := by
  refine ⟨?_, ?_, ?_⟩
  · intro h; subst h; rfl
  · intro hs hc; subst hc
    rcases hs with h | h <;> subst h <;> rfl
  · intro h0 h282 h286
    unfold open_scope
    rw [if_neg h0, if_neg (by simp [h282, h286])]

/-- C4 witness: the recovered path at the concrete insufficient-external-power
code 282 with a successful renegotiation. -/
theorem C4_open_power_handling_witness :
    open_scope 282 0 = (PowerAction.changeTo 282, OpenOutcome.ok) :=
  (C4_open_power_handling 282 0).2.1 (Or.inl rfl) rfl

/-- One channel configuration as applied by `ps3000aSetChannel`:
channel index, the enabled flag, coupling, range index, analogue offset. -/
structure ChannelConfig where
  channel : ℕ
  enabled : Bool
  coupling : ℕ
  range : ℕ
  offset : ℚ

/-- `ps3000atest_o4.py`, `setup_channels` (and identically in the 4.5 and
sonn3.7 variants): channel A and channel B are both set with enable flag 1,
DC coupling (index 1), ranges `RANGE_A` and `RANGE_B`, offset 0. -/
def setup_channels_cfg (rangeA rangeB : ℕ) : List ChannelConfig :=
  [⟨0, true, 1, rangeA, 0⟩, ⟨1, true, 1, rangeB, 0⟩]

/-- Number of channels a configuration list enables. -/
def enabledChannelCount (cfgs : List ChannelConfig) : ℕ :=
  (cfgs.filter (fun c => c.enabled)).length

/-- `ps3000atest_o4.py`, `capture_and_save`:
`n_samples = min(seg_max, SAMPLES_PER_SEGMENT)` where `seg_max` is the
per-segment maximum reported by `ps3000aMemorySegments`. -/
def n_samples_o4 (seg_max samples_per_segment : ℕ) : ℕ :=
  min seg_max samples_per_segment

/-- `ps3000atest_o4.py`, `allocate_buffers`: the loop appends, for each of the
`n_segments` segments, one zero-initialised `n_samples`-element `c_int16`
array per channel, collected in the two lists `bufs_a` and `bufs_b`. -/
def allocate_buffers (n_segments n_samples : ℕ) : List (List ℤ) × List (List ℤ) :=
  ((List.range n_segments).map (fun _ => List.replicate n_samples 0),
   (List.range n_segments).map (fun _ => List.replicate n_samples 0))

/-- One `ps3000aSetDataBuffers` registration: channel index, segment index and
the buffer length passed to the driver. -/
structure BufferReg where
  channel : ℕ
  segment : ℕ
  bufLen : ℕ
  deriving DecidableEq

/-- `ps3000atest_o4.py`, `set_data_buffers`: for each index in
`range(len(bufs_a))` the loop registers the channel-A buffer and then the
channel-B buffer of that segment, each with length argument `n_samples`. -/
def set_data_buffers (nBufs n_samples : ℕ) : List BufferReg :=
  (List.range nBufs).flatMap (fun idx => [⟨0, idx, n_samples⟩, ⟨1, idx, n_samples⟩])

/-- `ps3000atest_4.5.py`, `capture_segments`: the loop allocates, for each of
the `NUM_SEGMENTS` segments, one `SAMPLES_PER_SEGMENT`-element zero
`c_int16` array per channel and registers it with that same length; the
per-segment maximum reported by `ps3000aMemorySegments` was discarded inside
`setup_segments` and does not reach this function. -/
def capture_segments_45_buffers (num_segments samples_per_segment : ℕ) :
    List (List ℤ) × List (List ℤ) :=
  ((List.range num_segments).map (fun _ => List.replicate samples_per_segment 0),
   (List.range num_segments).map (fun _ => List.replicate samples_per_segment 0))

/-- The buffer sizes the `ps3000atest_4.5.py` main path ends up allocating, as
a function of the configuration and of the device-reported per-segment
maximum. The `deviceMax` argument is the value `ps3000aMemorySegments` writes
into `nMaxSamples`; `setup_segments` drops it, so it does not influence the
result. -/
def buffer_sizes_45 (num_segments samples_per_segment deviceMax : ℕ) : List ℕ :=
  ((capture_segments_45_buffers num_segments samples_per_segment).1 ++
   (capture_segments_45_buffers num_segments samples_per_segment).2).map List.length

/-- `samples_needed` in `ps3000atest_o4.py`, `capture_and_save`:
`int(time_required_ns / timeIntervalNs.value) + 100` with
`time_required_ns = 1_000_000`. -/
def samples_needed_o4 (timeIntervalNs : ℚ) : ℤ :=
  pyTrunc (1000000 / timeIntervalNs) + 100

/-- The shortfall warning of `ps3000atest_o4.py`, `capture_and_save`: the
`WARNING` branch prints exactly when `samples_needed > n_samples`. It is a
print, not an exception — the capture proceeds either way. -/
def shortfall_warning_o4 (timeIntervalNs : ℚ) (n_samples : ℕ) : Bool :=
  samples_needed_o4 timeIntervalNs > (n_samples : ℤ)

/-- Modelled from the spec: `picosdk.functions.adc2mV` is code of this
repository outside the example scripts; per §4.6 it is the linear scaling
`code * rangeVolts / maxCode` producing millivolts, with `vRangeMV` the
channel's full-scale magnitude in millivolts. -/
def adc2mV (buffer : List ℤ) (vRangeMV : ℚ) (maxADC : ℤ) : List ℚ :=
  buffer.map (fun x => (x : ℚ) * vRangeMV / (maxADC : ℚ))

/-- `numpy.linspace(start, stop, num)` with the default inclusive endpoint:
`num` evenly spaced values from `start` to `stop`; a single value is `start`
alone, zero values give the empty list. -/
def linspace (start stop : ℚ) (num : ℕ) : List ℚ :=
  if num = 0 then []
  else if num = 1 then [start]
  else (List.range num).map
    (fun (i : ℕ) => start + (stop - start) * (i : ℚ) / ((num : ℚ) - 1))

/-- The per-segment CSV rows written by `ps3000atest_o4.py` (and identically
by `ps3000a_docsV2_sonn3.7.py`): `time_ns = np.linspace(0, 1_000_000,
n_samples)` and one `[time_ns[i], data_a[i], data_b[i]]` row per
`i in range(n_samples)`. The queried `timeIntervalNs` is a parameter of the
surrounding function but is not read by this part of it. -/
def segment_rows_o4 (timeIntervalNs : ℚ) (n_samples : ℕ) (data_a data_b : List ℚ) :
    List (ℚ × ℚ × ℚ) :=
  (List.range n_samples).map
    (fun i => ((linspace 0 1000000 n_samples).getD i 0, data_a.getD i 0, data_b.getD i 0))

/-- The caller-visible output of the conversion-and-save loop of
`ps3000atest_o4.py`, `capture_and_save`, as a function of everything the
preceding `ps3000aGetValuesBulk` produced: the device-filled buffers and the
per-segment `overflow` array. `RANGE_A` is ±1 V (1000 mV), `RANGE_B` ±10 V
(10000 mV). The `overflow` array, filled by the bulk call, is not read
afterwards. -/
def o4_csv_output (timeIntervalNs : ℚ) (n_samples : ℕ) (maxADC : ℤ)
    (bufsA bufsB : List (List ℤ)) (overflow : List ℤ) :
    List (List (ℚ × ℚ × ℚ)) :=
  (List.range bufsA.length).map (fun idx =>
    segment_rows_o4 timeIntervalNs n_samples
      (adc2mV (bufsA.getD idx []) 1000 maxADC)
      (adc2mV (bufsB.getD idx []) 10000 maxADC))

/-- `ps3000atest_4.5.py`, `capture_segments`: after `ps3000aRunBlock` and the
`ps3000aIsReady` poll loop, `ps3000aGetValuesBulk` fills the registered
buffers and the `overflow` array; the function then returns only
`(buffers_a, buffers_b)`. `filledA`/`filledB` are the buffer contents and
`overflow` the flag array as the bulk call left them. -/
def capture_segments_45_result (filledA filledB : List (List ℤ)) (overflow : List ℤ) :
    List (List ℤ) × List (List ℤ) :=
  (filledA, filledB)

/-- Every buffer `allocate_buffers` produces has length `n_samples`. -/
theorem mem_allocate_buffers_length (n_segments n_samples : ℕ) :
    ∀ b ∈ (allocate_buffers n_segments n_samples).1 ++
          (allocate_buffers n_segments n_samples).2,
      b.length = n_samples := by
  intro b hb
  rcases List.mem_append.mp hb with h | h <;>
    · rcases List.mem_map.mp h with ⟨i, _, rfl⟩
      exact List.length_replicate _ _

/-- Every registration `set_data_buffers` issues carries length `n_samples`. -/
theorem set_data_buffers_bufLen (nBufs n_samples : ℕ) :
    ∀ r ∈ set_data_buffers nBufs n_samples, r.bufLen = n_samples := by
  intro r hr
  rcases List.mem_flatMap.mp hr with ⟨idx, _, hmem⟩
  simp only [List.mem_cons, List.not_mem_nil, or_false] at hmem
  rcases hmem with rfl | rfl <;> rfl

/-- `set_data_buffers` issues two registrations per buffer index. -/
theorem set_data_buffers_length (nBufs n_samples : ℕ) :
    (set_data_buffers nBufs n_samples).length = 2 * nBufs := by
  induction nBufs with
  | zero => rfl
  | succ k ih =>
      unfold set_data_buffers at ih ⊢
      rw [List.range_succ, List.flatMap_append, List.length_append, ih]
      simp [Nat.mul_succ]

/-- C2 counterexample: at the spec scenario with `segmentCount = 4`,
`samplesPerSegment = 100` and the device reporting `deviceMax = 64`, the
`ps3000atest_4.5.py` rapid-block path allocates and registers 100-sample
buffers for all four segments on both channels — not the claimed
`min(100, 64) = 64` — because `setup_segments` discards the device-reported
maximum. -/
theorem C2_counterexample :
    buffer_sizes_45 4 100 64 = List.replicate 8 100 ∧
    min 100 64 = 64 ∧ (100 : ℕ) ≠ 64 := by
  refine ⟨?_, rfl, by decide⟩
  rfl

/-- C2 amended: the `ps3000atest_o4.py` (and sonn3.7) rapid-block controller
sizes every allocated and registered buffer to
`min(deviceReportedMax, samplesPerSegment)`, and its shortfall warning is a
print (the run proceeds); at the spec scenario (4 segments, 100 requested,
device reports 64) that variant allocates 64-sample buffers for every
segment; but the `ps3000atest_4.5.py` variant ignores the device-reported
maximum and sizes every buffer at the requested `samplesPerSegment`. -/
theorem C2_clamped_sizing (seg_max samples_per_segment n_segments : ℕ) :
    (∀ b ∈ (allocate_buffers n_segments (n_samples_o4 seg_max samples_per_segment)).1 ++
           (allocate_buffers n_segments (n_samples_o4 seg_max samples_per_segment)).2,
       b.length = min seg_max samples_per_segment) ∧
    (∀ r ∈ set_data_buffers n_segments (n_samples_o4 seg_max samples_per_segment),
       r.bufLen = min seg_max samples_per_segment) ∧
    ((allocate_buffers 4 (n_samples_o4 64 100)).1.map List.length = List.replicate 4 64) ∧
    shortfall_warning_o4 80 64 = true ∧
    buffer_sizes_45 n_segments samples_per_segment seg_max
      = List.replicate (2 * n_segments) samples_per_segment := by
  refine ⟨mem_allocate_buffers_length _ _, set_data_buffers_bufLen _ _, rfl, ?_, ?_⟩
  · unfold shortfall_warning_o4 samples_needed_o4 pyTrunc
    rw [if_pos (by norm_num)]
    norm_num
  · unfold buffer_sizes_45 capture_segments_45_buffers
    rw [List.map_append, List.map_map, two_mul, List.replicate_add]
    congr 1 <;>
      · simp [Function.comp_def, List.map_const', List.length_replicate]

/-- C2 amended witness: the amended theorem applied at `seg_max = 64`,
`samples_per_segment = 100`, two segments, evaluated on a concrete member. -/
theorem C2_clamped_sizing_witness :
    List.replicate 64 (0 : ℤ) ∈
      (allocate_buffers 2 (n_samples_o4 64 100)).1 ++
      (allocate_buffers 2 (n_samples_o4 64 100)).2 ∧
    (List.replicate 64 (0 : ℤ)).length = min 64 100 :=
  ⟨by simp [allocate_buffers, n_samples_o4],
   (C2_clamped_sizing 64 100 2).1 (List.replicate 64 0)
     (by simp [allocate_buffers, n_samples_o4])⟩

/-- C5 counterexample: a retrieval whose per-segment overflow flags are all
set produces caller-visible output identical to the same retrieval with no
overflow, in both the `ps3000atest_4.5.py` return value and the
`ps3000atest_o4.py` CSV output — so the flags collected by
`ps3000aGetValuesBulk` are not surfaced to any caller or consumer. -/
theorem C5_counterexample :
    capture_segments_45_result [[1, 2]] [[3, 4]] [0]
      = capture_segments_45_result [[1, 2]] [[3, 4]] [1] ∧
    o4_csv_output 80 2 32767 [[1, 2]] [[3, 4]] [0]
      = o4_csv_output 80 2 32767 [[1, 2]] [[3, 4]] [1] :=
  ⟨rfl, rfl⟩

/-- C5 amended: the per-segment overflow flags filled in by
`ps3000aGetValuesBulk` are swallowed, not surfaced: in every variant the
caller-visible result of the capture — the buffer lists returned by
`capture_segments` in `ps3000atest_4.5.py`, and the CSV rows written by
`capture_and_save` in `ps3000atest_o4.py`/`ps3000a_docsV2_sonn3.7.py` — is
independent of the contents of the overflow array. -/
theorem C5_overflow_swallowed (filledA filledB bufsA bufsB : List (List ℤ))
    (ovf ovf2 : List ℤ) (t : ℚ) (n : ℕ) (m : ℤ) :
    capture_segments_45_result filledA filledB ovf
      = capture_segments_45_result filledA filledB ovf2 ∧
    o4_csv_output t n m bufsA bufsB ovf
      = o4_csv_output t n m bufsA bufsB ovf2 :=
  ⟨rfl, rfl⟩

/-- C8: for every configured segment count and per-segment sample capacity,
the rapid-block path allocates `segmentCount × enabledChannelCount` host
buffers (both channels are enabled by `setup_channels`), registers the same
number with the device, and every allocated buffer and every registration
shares the single per-segment capacity `n_samples`. -/
theorem C8_buffer_pool_invariant (n_segments n_samples rangeA rangeB : ℕ) :
    ((allocate_buffers n_segments n_samples).1.length +
     (allocate_buffers n_segments n_samples).2.length
       = n_segments * enabledChannelCount (setup_channels_cfg rangeA rangeB)) ∧
    ((set_data_buffers n_segments n_samples).length
       = n_segments * enabledChannelCount (setup_channels_cfg rangeA rangeB)) ∧
    (∀ b ∈ (allocate_buffers n_segments n_samples).1 ++
           (allocate_buffers n_segments n_samples).2,
       b.length = n_samples) ∧
    (∀ r ∈ set_data_buffers n_segments n_samples, r.bufLen = n_samples) := by
  have hcount : enabledChannelCount (setup_channels_cfg rangeA rangeB) = 2 := rfl
  refine ⟨?_, ?_, mem_allocate_buffers_length _ _, set_data_buffers_bufLen _ _⟩
  · rw [hcount]
    unfold allocate_buffers
    simp only [List.length_map, List.length_range]
    omega
  · rw [hcount, set_data_buffers_length, Nat.mul_comm]

/-- C8 witness: the invariant applied at two segments of five samples,
evaluated on a concrete allocated buffer. -/
theorem C8_buffer_pool_invariant_witness :
    List.replicate 5 (0 : ℤ) ∈
      (allocate_buffers 2 5).1 ++ (allocate_buffers 2 5).2 ∧
    (List.replicate 5 (0 : ℤ)).length = 5 :=
  ⟨by simp [allocate_buffers],
   (C8_buffer_pool_invariant 2 5 6 9).2.2.1 (List.replicate 5 0)
     (by simp [allocate_buffers])⟩

/-- Python list slice `l[start : start + len]`. -/
def pySlice (l : List ℤ) (start len : ℕ) : List ℤ :=
  (l.drop start).take len

/-- `save_buffer_to_csv` in `ps3000atest_sonn.py`: converts both copied
buffers to millivolts via `adc2mV`, builds
`time_ns = np.arange(len(buffer_a)) * sample_interval_ns`, and writes one
`[time_ns[i], a_mV[i], b_mV[i]]` row per `i in range(len(buffer_a))`. The
rows are the record handed to persistence. -/
def save_buffer_to_csv (channel_range_mV : ℚ) (maxADC : ℤ)
    (buffer_a buffer_b : List ℤ) (sample_interval_ns : ℚ) :
    List (ℚ × ℚ × ℚ) :=
  (List.range buffer_a.length).map (fun (i : ℕ) =>
    ((i : ℚ) * sample_interval_ns,
     (adc2mV buffer_a channel_range_mV maxADC).getD i 0,
     (adc2mV buffer_b channel_range_mV maxADC).getD i 0))

/-- The mutable globals of `ps3000atest_sonn.py` that the streaming callback
and driving loop update, together with the sequence of CSV records already
handed to persistence. -/
structure StreamState where
  nextSample : ℕ
  autoStopOuter : Bool
  wasCalledBack : Bool
  buffersCaptured : ℕ
  iterationCount : ℕ
  savedCsv : List (List (ℚ × ℚ × ℚ))
  deriving DecidableEq

/-- The initial values of the streaming globals: `nextSample = 0`,
`autoStopOuter = False`, `wasCalledBack = False`, `buffers_captured = 0`,
`iteration_count = 0`, nothing saved yet. -/
def initialStreamState : StreamState := ⟨0, false, false, 0, 0, []⟩

/-- `streaming_callback` in `ps3000atest_sonn.py`: sets `wasCalledBack`; when
`noOfSamples > 0` it copies `bufferAMax[startIndex : startIndex + noOfSamples]`
and the same window of `bufferBMax` (numpy `.copy()`), saves the copies to CSV
and increments `buffers_captured`; then adds `noOfSamples` to `nextSample` and
latches `autoStopOuter` when the device signalled `autoStop`. `bufferA` and
`bufferB` are the ring-buffer contents at the moment the callback fires;
`crange`, `maxADC` and `interval` are the globals `channel_range`, `maxADC`
and `actualSampleIntervalNs`. -/
def streaming_callback (crange : ℚ) (maxADC : ℤ) (interval : ℚ)
    (bufferA bufferB : List ℤ) (noOfSamples startIndex : ℕ) (autoStop : Bool)
    (s : StreamState) : StreamState :=
  let s1 : StreamState := { s with wasCalledBack := true }
  let s2 : StreamState :=
    if 0 < noOfSamples then
      { s1 with
          savedCsv := s1.savedCsv ++
            [save_buffer_to_csv crange maxADC
              (pySlice bufferA startIndex noOfSamples)
              (pySlice bufferB startIndex noOfSamples) interval],
          buffersCaptured := s1.buffersCaptured + 1 }
    else s1
  let s3 : StreamState := { s2 with nextSample := s2.nextSample + noOfSamples }
  if autoStop then { s3 with autoStopOuter := true } else s3

/-- What the device does on one `ps3000aGetStreamingLatestValues` poll: either
it has no new data (the callback does not fire), or it has written the ring
buffers and fires the callback with a sample window and the auto-stop flag. -/
inductive PollEvent
  | noData
  | delivered (bufferA bufferB : List ℤ) (noOfSamples startIndex : ℕ) (autoStop : Bool)

/-- One iteration body of the driving loop of `ps3000atest_sonn.py`:
`wasCalledBack = False`, then `ps3000aGetStreamingLatestValues` fires the
callback synchronously if the device has data (otherwise the script sleeps
briefly), then `iteration_count += 1`. -/
def pollStep (crange : ℚ) (maxADC : ℤ) (interval : ℚ) (ev : PollEvent)
    (s : StreamState) : StreamState :=
  let s0 : StreamState := { s with wasCalledBack := false }
  let s1 : StreamState :=
    match ev with
    | PollEvent.noData => s0
    | PollEvent.delivered a b n i stop =>
        streaming_callback crange maxADC interval a b n i stop s0
  { s1 with iterationCount := s1.iterationCount + 1 }

/-- The driving loop
`while nextSample < totalSamples and not autoStopOuter and iteration_count < max_iterations`
of `ps3000atest_sonn.py`, run with explicit fuel; `device` gives the poll
event of each iteration, indexed by the iteration count at which the poll is
issued. Fuel at least `maxIterations` makes the fuel bound unreachable, since
the guard stops the loop at `iteration_count = max_iterations`. -/
def streamLoopAux (crange : ℚ) (maxADC : ℤ) (interval : ℚ)
    (device : ℕ → PollEvent) (totalSamples maxIterations : ℕ) :
    ℕ → StreamState → StreamState
  | 0, s => s
  | fuel + 1, s =>
      if s.nextSample < totalSamples ∧ s.autoStopOuter = false ∧
         s.iterationCount < maxIterations then
        streamLoopAux crange maxADC interval device totalSamples maxIterations fuel
          (pollStep crange maxADC interval (device s.iterationCount) s)
      else s

/-- The full driving loop of `ps3000atest_sonn.py` from the initial globals:
`totalSamples = sizeOfOneBuffer * numBuffersToCapture = 5000` and
`max_iterations = 1000` in the script; both are kept as arguments here. -/
def streamLoop (crange : ℚ) (maxADC : ℤ) (interval : ℚ)
    (device : ℕ → PollEvent) (totalSamples maxIterations : ℕ) : StreamState :=
  streamLoopAux crange maxADC interval device totalSamples maxIterations
    maxIterations initialStreamState

/-- After the loop, `ps3000atest_sonn.py` prints a completion summary and
asserts the statuses of `ps3000aStop` and `ps3000aCloseUnit`; nothing in this
tail inspects how the loop ended. The surfaced outcome is an exception only
when one of those two statuses is nonzero. -/
def stream_script_tail (stopStatus closeStatus : ℕ) : OpenOutcome :=
  if stopStatus = 0 then
    if closeStatus = 0 then OpenOutcome.ok else OpenOutcome.raised closeStatus
  else OpenOutcome.raised stopStatus

/-- The streaming callback leaves the iteration counter unchanged. -/
theorem streaming_callback_iterationCount (crange : ℚ) (maxADC : ℤ) (interval : ℚ)
    (a b : List ℤ) (n i : ℕ) (stop : Bool) (s : StreamState) :
    (streaming_callback crange maxADC interval a b n i stop s).iterationCount
      = s.iterationCount := by
  simp only [streaming_callback]
  split <;> split <;> rfl

/-- Each pass of the driving loop body increments the iteration counter by
exactly one. -/
theorem pollStep_iterationCount (crange : ℚ) (maxADC : ℤ) (interval : ℚ)
    (ev : PollEvent) (s : StreamState) :
    (pollStep crange maxADC interval ev s).iterationCount = s.iterationCount + 1 := by
  unfold pollStep
  cases ev with
  | noData => rfl
  | delivered a b n i stop =>
      dsimp only
      rw [streaming_callback_iterationCount]

/-- Exit property of the driving loop: with fuel covering the remaining
iteration budget, the loop ends with the guard false — target reached,
auto-stop latched, or the iteration ceiling hit exactly. -/
theorem streamLoopAux_exit (crange : ℚ) (maxADC : ℤ) (interval : ℚ)
    (device : ℕ → PollEvent) (total maxIter : ℕ) :
    ∀ fuel s, maxIter ≤ s.iterationCount + fuel → s.iterationCount ≤ maxIter →
      (total ≤ (streamLoopAux crange maxADC interval device total maxIter fuel s).nextSample ∨
       (streamLoopAux crange maxADC interval device total maxIter fuel s).autoStopOuter = true ∨
       (streamLoopAux crange maxADC interval device total maxIter fuel s).iterationCount = maxIter) := by
  intro fuel
  induction fuel with
  | zero =>
      intro s hge hle
      right; right
      unfold streamLoopAux
      omega
  | succ k ih =>
      intro s hge hle
      unfold streamLoopAux
      split
      case isTrue h =>
        apply ih
        · rw [pollStep_iterationCount]; omega
        · rw [pollStep_iterationCount]; omega
      case isFalse h =>
        rcases Decidable.not_and_iff_or_not.mp h with hn | h2
        · exact Or.inl (Nat.le_of_not_lt hn)
        · rcases Decidable.not_and_iff_or_not.mp h2 with hs | hi
          · exact Or.inr (Or.inl (by simpa using hs))
          · exact Or.inr (Or.inr (by omega))

/-- C3: the streaming callback copies the delivered ring-buffer window
`[startIndex, startIndex + noOfSamples)` and hands the converted record to
persistence inside the callback itself — hence before the controller can
issue the next poll. Over two consecutive deliveries, the record saved by the
first is a function of the ring contents at the first delivery only: whatever
the device wrote into the ring by the time of the second delivery
(`A2`, `B2`, with any overlapping offsets) leaves it unchanged. -/
theorem C3_copy_before_next_poll (crange : ℚ) (maxADC : ℤ) (interval : ℚ)
    (A1 B1 A2 B2 : List ℤ) (n1 i1 n2 i2 : ℕ) (a1 a2 : Bool) (s0 : StreamState)
    (h1 : 0 < n1) (h2 : 0 < n2) :
    (streaming_callback crange maxADC interval A2 B2 n2 i2 a2
        (streaming_callback crange maxADC interval A1 B1 n1 i1 a1 s0)).savedCsv
      = s0.savedCsv ++
        [save_buffer_to_csv crange maxADC (pySlice A1 i1 n1) (pySlice B1 i1 n1) interval,
         save_buffer_to_csv crange maxADC (pySlice A2 i2 n2) (pySlice B2 i2 n2) interval] ∧
    (streaming_callback crange maxADC interval A2 B2 n2 i2 a2
        (streaming_callback crange maxADC interval A1 B1 n1 i1 a1 s0)).savedCsv.getD
        s0.savedCsv.length []
      = save_buffer_to_csv crange maxADC (pySlice A1 i1 n1) (pySlice B1 i1 n1) interval := by
  have hsaved :
      (streaming_callback crange maxADC interval A2 B2 n2 i2 a2
          (streaming_callback crange maxADC interval A1 B1 n1 i1 a1 s0)).savedCsv
        = s0.savedCsv ++
          [save_buffer_to_csv crange maxADC (pySlice A1 i1 n1) (pySlice B1 i1 n1) interval,
           save_buffer_to_csv crange maxADC (pySlice A2 i2 n2) (pySlice B2 i2 n2) interval] := by
    unfold streaming_callback
    cases a1 <;> cases a2 <;> simp [h1, h2]
  refine ⟨hsaved, ?_⟩
  rw [hsaved, List.getD_eq_getElem?_getD, List.getElem?_append_right (Nat.le_refl _)]
  simp

/-- C3 witness: the copy invariant at concrete overlapping deliveries — both
windows start at ring offset 0 — with the second delivery's ring contents
differing from the first. -/
theorem C3_copy_before_next_poll_witness :
    0 < 1 ∧
    ((streaming_callback 2000 32767 250000 [9, 10] [11, 12] 1 0 false
        (streaming_callback 2000 32767 250000 [5, 6] [7, 8] 1 0 false
          initialStreamState)).savedCsv
      = initialStreamState.savedCsv ++
        [save_buffer_to_csv 2000 32767 (pySlice [5, 6] 0 1) (pySlice [7, 8] 0 1) 250000,
         save_buffer_to_csv 2000 32767 (pySlice [9, 10] 0 1) (pySlice [11, 12] 0 1) 250000] ∧
     (streaming_callback 2000 32767 250000 [9, 10] [11, 12] 1 0 false
        (streaming_callback 2000 32767 250000 [5, 6] [7, 8] 1 0 false
          initialStreamState)).savedCsv.getD initialStreamState.savedCsv.length []
      = save_buffer_to_csv 2000 32767 (pySlice [5, 6] 0 1) (pySlice [7, 8] 0 1) 250000) :=
  ⟨Nat.zero_lt_one,
   C3_copy_before_next_poll 2000 32767 250000 [5, 6] [7, 8] [9, 10] [11, 12]
     1 0 1 0 false false initialStreamState Nat.zero_lt_one Nat.zero_lt_one⟩

/-- A device that never produces data and never signals auto-stop. -/
def deviceNever : ℕ → PollEvent := fun _ => PollEvent.noData

/-- C7 counterexample: against a device that never delivers and never signals
completion, the driving loop of `ps3000atest_sonn.py` (target 5000 samples,
ceiling 1000 iterations) exits at the ceiling with zero samples accumulated,
and the script tail then runs the normal stop/close path surfacing nothing:
no `StreamingStalled` (nor any other) condition distinguishes the stalled run
from a completed one. -/
theorem C7_counterexample :
    (streamLoop 2000 32767 250000 deviceNever 5000 1000).iterationCount = 1000 ∧
    (streamLoop 2000 32767 250000 deviceNever 5000 1000).nextSample = 0 ∧
    stream_script_tail 0 0 = OpenOutcome.ok := by
  refine ⟨?_, ?_, rfl⟩ <;> decide

/-- C7 amended: the streaming driving loop always terminates — when it stops,
either the accumulated sample count has reached the target, or the device
signalled auto-stop, or the hard ceiling of 1000 iterations was hit; hitting
the ceiling, however, is silent: the script proceeds to the normal stop/close
tail with no distinct stalled condition surfaced. -/
theorem C7_loop_termination (crange : ℚ) (maxADC : ℤ) (interval : ℚ)
    (device : ℕ → PollEvent) (total : ℕ) :
    total ≤ (streamLoop crange maxADC interval device total 1000).nextSample ∨
    (streamLoop crange maxADC interval device total 1000).autoStopOuter = true ∨
    (streamLoop crange maxADC interval device total 1000).iterationCount = 1000 :=
  streamLoopAux_exit crange maxADC interval device total 1000 1000
    initialStreamState (by simp [initialStreamState]) (by simp [initialStreamState])

/-- A Python exception kind as far as the scripts distinguish them:
`KeyboardInterrupt` (caught by the `except` clause of `ps3000atest_4.5.py`)
versus anything else. -/
inductive PyExc
  | keyboardInterrupt
  | otherError
  deriving DecidableEq

/-- How a script run ended as far as the device handle is concerned: how many
times `ps3000aStop` and `ps3000aCloseUnit` ran, and which exception (if any)
propagated to the caller. -/
structure TeardownResult where
  stopCalls : ℕ
  closeCalls : ℕ
  uncaught : Option PyExc
  deriving DecidableEq

/-- One execution of `main()` in `ps3000atest_4.5.py`, described by which of
the pre-`try` steps raises (the `open_scope`, `setup_channels`,
`setup_trigger` and `setup_segments` calls sit before the `try` block) and by
the exception that eventually ends the `while True` capture loop — the loop
has no normal exit, so a terminating run always ends it with some
exception. -/
structure ScriptRun45 where
  openRaises : Bool
  setupChannelsRaises : Bool
  setupTriggerRaises : Bool
  setupSegmentsRaises : Bool
  loopExc : PyExc

/-- `main()` of `ps3000atest_4.5.py`: the four setup calls run before the
`try`, so an exception in any of them propagates with no teardown; once the
`try` block is entered, the `finally` clause runs `ps3000aStop` and
`ps3000aCloseUnit` exactly once on every exit, and `except KeyboardInterrupt`
swallows that exception while any other propagates after the teardown. -/
def main_45 (r : ScriptRun45) : TeardownResult :=
  if r.openRaises then ⟨0, 0, some PyExc.otherError⟩
  else if r.setupChannelsRaises then ⟨0, 0, some PyExc.otherError⟩
  else if r.setupTriggerRaises then ⟨0, 0, some PyExc.otherError⟩
  else if r.setupSegmentsRaises then ⟨0, 0, some PyExc.otherError⟩
  else
    match r.loopExc with
    | PyExc.keyboardInterrupt => ⟨1, 1, none⟩
    | PyExc.otherError => ⟨1, 1, some PyExc.otherError⟩

/-- `capture_and_save()` of `ps3000atest_o4.py` (same shape in
`ps3000a_docsV2_sonn3.7.py`): straight-line code with no `try`/`finally`; each
`assert_pico_ok`-checked stage either passes or raises, and `ps3000aStop` and
`ps3000aCloseUnit` run only when every stage before them passed. The flags
state, in program order, whether the open, the channel/trigger setup, the
segment setup, the `ps3000aGetTimebase2` query, the buffer registration, the
`ps3000aRunBlock` start, the `ps3000aGetValuesBulk` retrieval and the final
`ps3000aMaximumValue` query passed their assertion. -/
def capture_and_save_teardown_o4 (openOk channelsOk segmentsOk timebaseOk
    buffersOk runBlockOk bulkOk maxValueOk : Bool) : TeardownResult :=
  if openOk = false then ⟨0, 0, some PyExc.otherError⟩
  else if channelsOk = false then ⟨0, 0, some PyExc.otherError⟩
  else if segmentsOk = false then ⟨0, 0, some PyExc.otherError⟩
  else if timebaseOk = false then ⟨0, 0, some PyExc.otherError⟩
  else if buffersOk = false then ⟨0, 0, some PyExc.otherError⟩
  else if runBlockOk = false then ⟨0, 0, some PyExc.otherError⟩
  else if bulkOk = false then ⟨0, 0, some PyExc.otherError⟩
  else if maxValueOk = false then ⟨0, 0, some PyExc.otherError⟩
  else ⟨1, 1, none⟩

/-- C6 counterexample: in `ps3000atest_o4.py`, a run whose
`ps3000aGetValuesBulk` assertion fails — after a fully successful open and an
active capture — propagates the error with `ps3000aStop` and
`ps3000aCloseUnit` never invoked: an error exit path of a successful open on
which the session close does not happen. -/
theorem C6_counterexample :
    (capture_and_save_teardown_o4 true true true true true true false true).closeCalls = 0 ∧
    (capture_and_save_teardown_o4 true true true true true true false true).stopCalls = 0 ∧
    (capture_and_save_teardown_o4 true true true true true true false true).uncaught
      = some PyExc.otherError := by
  refine ⟨rfl, rfl, rfl⟩

/-- C6 amended: teardown is guaranteed only on part of the exit paths. In
`ps3000atest_4.5.py`, once setup completes and the `try` block is entered,
stop and close run exactly once however the capture loop ends (interrupt or
error); but an exception in the setup calls after a successful open there, and
any assertion failure in `ps3000atest_o4.py`'s `capture_and_save` (which has
no `finally`), exits without stop or close. -/
theorem C6_teardown_paths (e : PyExc) (a b c d f g x : Bool) :
    (main_45 ⟨false, false, false, false, e⟩).closeCalls = 1 ∧
    (main_45 ⟨false, false, false, false, e⟩).stopCalls = 1 ∧
    (main_45 ⟨false, true, false, false, e⟩).closeCalls = 0 ∧
    capture_and_save_teardown_o4 true true true true true true true true
      = ⟨1, 1, none⟩ ∧
    (capture_and_save_teardown_o4 a b c d f g false x).closeCalls = 0 := by
  cases e <;>
    · refine ⟨rfl, rfl, rfl, rfl, ?_⟩
      revert a b c d f g x
      decide

/-- The device-boundary calls the scripts issue, named after the driver entry
points. -/
inductive DriverCall
  | openUnit
  | changePowerSource
  | setChannel
  | maximumValue
  | setSimpleTrigger
  | memorySegments
  | setNoOfCaptures
  | getTimebase2
  | setDataBuffers
  | runBlock
  | isReady
  | getValuesBulk
  | stop
  | closeUnit
  deriving DecidableEq

/-- Driver calls of `open_scope`: `ps3000aOpenUnit`, followed by
`ps3000aChangePowerSource` exactly when the recovered power path was taken. -/
def open_scope_calls (recovered : Bool) : List DriverCall :=
  DriverCall.openUnit ::
    (if recovered then [DriverCall.changePowerSource] else [])

/-- Driver calls of `setup_channels` in `ps3000atest_o4.py` (and sonn3.7):
two `ps3000aSetChannel` calls, the `ps3000aMaximumValue` query for the
trigger threshold, then `ps3000aSetSimpleTrigger`. -/
def setup_channels_calls_o4 : List DriverCall :=
  [DriverCall.setChannel, DriverCall.setChannel,
   DriverCall.maximumValue, DriverCall.setSimpleTrigger]

/-- Driver calls of `setup_segments` in `ps3000atest_o4.py`:
`ps3000aMemorySegments` then `ps3000aSetNoOfCaptures`. -/
def setup_segments_calls_o4 : List DriverCall :=
  [DriverCall.memorySegments, DriverCall.setNoOfCaptures]

/-- Driver calls of the buffer-registration loop: two `ps3000aSetDataBuffers`
calls (channel A, channel B) per segment index. -/
def set_data_buffers_calls (nBufs : ℕ) : List DriverCall :=
  (List.range nBufs).flatMap
    (fun _ => [DriverCall.setDataBuffers, DriverCall.setDataBuffers])

/-- The full driver-call trace of one `capture_and_save()` session of
`ps3000atest_o4.py` (identically `ps3000a_docsV2_sonn3.7.py`): open, channel
and trigger setup (with its `ps3000aMaximumValue` query), segment setup, the
timebase query, buffer registration, the block run, the `ps3000aIsReady` poll
loop (at least one poll), the bulk retrieval, the second
`ps3000aMaximumValue` query before conversion, then stop and close. -/
def capture_and_save_calls_o4 (recovered : Bool) (n_segments pollIters : ℕ) :
    List DriverCall :=
  open_scope_calls recovered ++ setup_channels_calls_o4 ++
  setup_segments_calls_o4 ++ [DriverCall.getTimebase2] ++
  set_data_buffers_calls n_segments ++ [DriverCall.runBlock] ++
  List.replicate (pollIters + 1) DriverCall.isReady ++
  [DriverCall.getValuesBulk, DriverCall.maximumValue] ++
  [DriverCall.stop, DriverCall.closeUnit]

/-- Driver calls of one round of the `ps3000atest_4.5.py` capture loop:
`capture_segments` (buffer registration via `ps3000aSetDataBuffer`, the block
run, the `ps3000aIsReady` polls, `ps3000aGetValuesBulk`) followed by
`save_to_csv`, which queries `ps3000aMaximumValue` once. `setup_trigger` in
this variant performs no query — its threshold is hard-coded. -/
def capture_round_calls_45 (n_segments pollIters : ℕ) : List DriverCall :=
  set_data_buffers_calls n_segments ++ [DriverCall.runBlock] ++
  List.replicate (pollIters + 1) DriverCall.isReady ++
  [DriverCall.getValuesBulk] ++ [DriverCall.maximumValue]

/-- The capture-loop part of the `ps3000atest_4.5.py` session trace: `k` full
rounds of `capture_segments` plus `save_to_csv` (the `while True` loop runs
until interrupted). -/
def main_capture_calls_45 (n_segments pollIters k : ℕ) : List DriverCall :=
  (List.range k).flatMap (fun _ => capture_round_calls_45 n_segments pollIters)

/-- The buffer-registration calls contain no `ps3000aMaximumValue` query. -/
theorem count_maxvalue_set_data_buffers_calls (n : ℕ) :
    (set_data_buffers_calls n).count DriverCall.maximumValue = 0 := by
  induction n with
  | zero => rfl
  | succ k ih =>
      unfold set_data_buffers_calls at ih ⊢
      rw [List.range_succ, List.flatMap_append, List.count_append, ih]
      rfl

/-- Each `ps3000atest_4.5.py` capture round queries `ps3000aMaximumValue`
exactly once (inside `save_to_csv`). -/
theorem count_maxvalue_round_45 (n p : ℕ) :
    (capture_round_calls_45 n p).count DriverCall.maximumValue = 1 := by
  unfold capture_round_calls_45
  simp [List.count_append, count_maxvalue_set_data_buffers_calls,
    List.count_replicate, List.count_cons, List.count_nil]

/-- One `ps3000atest_o4.py` session queries `ps3000aMaximumValue` exactly
twice: once in `setup_channels` for the trigger threshold and once in
`capture_and_save` before conversion. -/
theorem count_maxvalue_o4_trace (recovered : Bool) (n p : ℕ) :
    (capture_and_save_calls_o4 recovered n p).count DriverCall.maximumValue = 2 := by
  unfold capture_and_save_calls_o4 open_scope_calls setup_channels_calls_o4
    setup_segments_calls_o4
  cases recovered <;>
    simp [List.count_append, count_maxvalue_set_data_buffers_calls,
      List.count_replicate, List.count_cons, List.count_nil]

/-- A `ps3000atest_4.5.py` session running `k` capture rounds queries
`ps3000aMaximumValue` `k` times. -/
theorem count_maxvalue_main_45 (n p k : ℕ) :
    (main_capture_calls_45 n p k).count DriverCall.maximumValue = k := by
  induction k with
  | zero => rfl
  | succ j ih =>
      unfold main_capture_calls_45 at ih ⊢
      rw [List.range_succ, List.flatMap_append, List.count_append, ih]
      simp [count_maxvalue_round_45]

/-- Converting a list of segments with a fixed maximum code and range
commutes with segment lookup (an empty segment converts to an empty list). -/
theorem getD_map_adc2mV (bufs : List (List ℤ)) (r : ℚ) (m : ℤ) (i : ℕ) :
    (bufs.map (fun b => adc2mV b r m)).getD i [] = adc2mV (bufs.getD i []) r m := by
  rcases Nat.lt_or_ge i bufs.length with h | h
  · rw [List.getD_eq_getElem _ _ (by simpa using h), List.getD_eq_getElem _ _ h,
      List.getElem_map]
  · rw [List.getD_eq_default _ _ (by simpa using h), List.getD_eq_default _ _ h]
    rfl

/-- C9 counterexample: the `ps3000atest_o4.py` session trace contains two
`ps3000aMaximumValue` queries — one during trigger setup, one before
conversion — not the claimed exactly one (concretely: 32 segments, one
readiness poll, no power renegotiation). -/
theorem C9_counterexample :
    (capture_and_save_calls_o4 false 32 0).count DriverCall.maximumValue = 2 ∧
    (capture_and_save_calls_o4 false 32 0).count DriverCall.maximumValue ≠ 1 := by
  refine ⟨?_, ?_⟩ <;> decide

/-- C9 amended: the maximum ADC code is not queried exactly once per session —
`ps3000atest_o4.py`/`ps3000a_docsV2_sonn3.7.py` query it twice per open
session and `ps3000atest_4.5.py` queries it once per capture round of its
unbounded loop — but within one conversion pass a single queried value is
applied to every segment, so two segments holding equal raw codes convert to
equal physical values (no per-segment drift inside a pass). -/
theorem C9_maxvalue_usage (recovered : Bool) (n_segments pollIters k : ℕ)
    (bufs : List (List ℤ)) (r : ℚ) (m : ℤ) (i j : ℕ)
    (hij : bufs.getD i [] = bufs.getD j []) :
    ((capture_and_save_calls_o4 recovered n_segments pollIters).count
        DriverCall.maximumValue = 2) ∧
    ((main_capture_calls_45 n_segments pollIters k).count
        DriverCall.maximumValue = k) ∧
    ((bufs.map (fun b => adc2mV b r m)).getD i []
        = (bufs.map (fun b => adc2mV b r m)).getD j []) := by
  refine ⟨count_maxvalue_o4_trace recovered n_segments pollIters,
    count_maxvalue_main_45 n_segments pollIters k, ?_⟩
  rw [getD_map_adc2mV, getD_map_adc2mV, hij]

/-- C9 amended witness: the amended theorem at a concrete session — two
segments with equal raw contents convert identically under the single
queried `maxADC`. -/
theorem C9_maxvalue_usage_witness :
    (([[7], [7]] : List (List ℤ)).getD 0 [] = ([[7], [7]] : List (List ℤ)).getD 1 []) ∧
    ((capture_and_save_calls_o4 false 2 0).count DriverCall.maximumValue = 2 ∧
     (main_capture_calls_45 2 0 3).count DriverCall.maximumValue = 3 ∧
     (([[7], [7]] : List (List ℤ)).map (fun b => adc2mV b 2000 32767)).getD 0 []
       = (([[7], [7]] : List (List ℤ)).map (fun b => adc2mV b 2000 32767)).getD 1 []) :=
  ⟨rfl, C9_maxvalue_usage false 2 0 3 [[7], [7]] 2000 32767 0 1 rfl⟩

/-- Lookup with default through a map over `List.range`. -/
theorem getD_map_range {α : Type} (f : ℕ → α) (n i : ℕ) (d : α) (h : i < n) :
    ((List.range n).map f).getD i d = f i := by
  rw [List.getD_eq_getElem?_getD, List.getElem?_map, List.getElem?_range h]
  rfl

/-- C10: the time column `ps3000atest_o4.py` (and `ps3000a_docsV2_sonn3.7.py`)
writes to every segment CSV is `np.linspace(0, 1_000_000, n_samples)` —
`n_samples` evenly spaced values running from 0 to 1,000,000 ns, the i-th
being `1_000_000 * i / (n_samples - 1)` — and the rows are identical for any
two values of the queried `timeIntervalNs`; the interval does influence the
shortfall warning (an 80 ns interval warns at 10000 samples, a 200 ns
interval does not). -/
theorem C10_time_axis (t t2 : ℚ) (n : ℕ) (da db : List ℚ) (hn : 2 ≤ n) :
    segment_rows_o4 t n da db = segment_rows_o4 t2 n da db ∧
    (∀ i, i < n →
      (linspace 0 1000000 n).getD i 0 = 1000000 * (i : ℚ) / ((n : ℚ) - 1)) ∧
    (linspace 0 1000000 n).getD 0 0 = 0 ∧
    (linspace 0 1000000 n).getD (n - 1) 0 = 1000000 ∧
    shortfall_warning_o4 80 10000 = true ∧
    shortfall_warning_o4 200 10000 = false := by
  have h2 : (2 : ℚ) ≤ (n : ℚ) := by exact_mod_cast hn
  have hn1 : ((n : ℚ) - 1) ≠ 0 := by
    intro hc
    have h1 : (n : ℚ) = 1 := by linarith
    linarith
  have hval : ∀ i, i < n →
      (linspace 0 1000000 n).getD i 0 = 1000000 * (i : ℚ) / ((n : ℚ) - 1) := by
    intro i hi
    unfold linspace
    rw [if_neg (by omega), if_neg (by omega), getD_map_range _ _ _ _ hi]
    ring
  refine ⟨rfl, hval, ?_, ?_, ?_, ?_⟩
  · rw [hval 0 (by omega)]
    norm_num
  · rw [hval (n - 1) (by omega)]
    have hcast : (((n - 1 : ℕ)) : ℚ) = (n : ℚ) - 1 := by
      have : (1 : ℕ) ≤ n := by omega
      push_cast [this]
      ring
    rw [hcast, mul_div_assoc, div_self hn1, mul_one]
  · unfold shortfall_warning_o4 samples_needed_o4 pyTrunc
    rw [if_pos (by norm_num)]
    norm_num
  · unfold shortfall_warning_o4 samples_needed_o4 pyTrunc
    rw [if_pos (by norm_num)]
    norm_num

/-- C10 witness: the time-axis theorem at `n_samples = 4` with two different
queried intervals, evaluated at row index 1. -/
theorem C10_time_axis_witness :
    2 ≤ 4 ∧ (linspace 0 1000000 4).getD 1 0 = 1000000 * ((1 : ℕ) : ℚ) / ((4 : ℚ) - 1) :=
  ⟨by decide, (C10_time_axis 80 200 4 [] [] (by decide)).2.1 1 (by decide)⟩

end Pico
